import Mathlib

/-!
Shallow embedding of the request-construction and configuration core of the
portkey Rust SDK (`src/client/auth.rs`, `src/client/config.rs`,
`src/client/portkey.rs`, `src/error.rs`, `src/service/chat.rs`), together
with theorems settling the specification claims about it.

Modelling conventions:
* Rust `String` values are Lean `String`s except where byte-level behaviour
  matters (`masked_api_key`, which slices by UTF-8 bytes); there the key is a
  `List Nat` of UTF-8 bytes.
* `std::time::Duration` is a `Nat` counting nanoseconds.
* Fallible Rust code returns `Except`/`Option`; a Rust panic is `Option.none`.
* The environment (`std::env::var`) is a function `String → Option String`.
* `serde_json::to_string` on the metadata map is an opaque fallible function,
  passed as a parameter `ser : Metadata → Option String`.
-/

namespace Portkey

/-- `AuthMethod` from `src/client/auth.rs`: the closed set of provider
authentication strategies. -/
inductive AuthMethod where
  | VirtualKey (virtual_key : String)
  | ProviderAuth (provider : String) (authorization : String)
      (custom_host : Option String)
  | Config (config_id : String)
deriving DecidableEq, Repr

/-- Metadata map attached to requests (`HashMap<String, serde_json::Value>` in
the source). Only its serialization is ever consumed by the core, so the
entry type is left as string pairs. -/
abbrev Metadata := List (String × String)

/-- `PortkeyConfig` from `src/client/config.rs`. The optional injected
`reqwest::Client` handle is omitted: it is an opaque transport never consumed
by header or URL assembly. `timeout` is in nanoseconds. -/
structure PortkeyConfig where
  api_key : String
  auth_method : AuthMethod
  base_url : String
  timeout : Nat
  trace_id : Option String
  metadata : Option Metadata
  cache_namespace : Option String
  cache_force_refresh : Option Bool
deriving DecidableEq, Repr

/-! ## URL assembly (`PortkeyClient::get` / `post` / `put` / `patch` / `delete`)

Each request constructor in `src/client/portkey.rs` builds the URL as the
plain string concatenation of the configured base URL and the path
(`format!` with the two pieces juxtaposed); nothing is trimmed or parsed. -/

/-- URL assembly as performed by `PortkeyClient::get`/`post`: string
concatenation of `base_url` and `path`. -/
def assembled_url (base_url path : String) : String :=
  base_url ++ path

/-- Whether a string ends in a slash character. -/
def ends_with_slash (s : String) : Bool :=
  match s.data.getLast? with
  | some c => c = '/'
  | none => false

/-- URL assembly as the specification describes it (refinement comparison
definition, written from the spec's words, not from the source): trim exactly
one trailing slash from the base, then append the path. -/
def spec_join_url (base_url path : String) : String :=
  (if ends_with_slash base_url then String.mk base_url.data.dropLast
   else base_url) ++ path

/-! ## Masked API key (`PortkeyConfig::masked_api_key`)

The Rust source reads:
`if self.api_key.len() > 4` then format the first four *bytes*
(`&self.api_key[..4]`) followed by `"****"`, else `"****"`.
`len()` is the UTF-8 byte length and `[..4]` is a byte slice that panics when
byte offset 4 is not a character boundary. The byte-level model below takes
the key as its list of UTF-8 bytes and returns `none` exactly when the slice
panics. -/

/-- The UTF-8 bytes of `"****"`. -/
def star_bytes : List Nat := [42, 42, 42, 42]

/-- Rust `str::is_char_boundary` at offset `i`: true at 0 and at the total
length, else true iff the byte at `i` is not a UTF-8 continuation byte. -/
def is_char_boundary (s : List Nat) (i : Nat) : Bool :=
  if i = 0 then true
  else if i = s.length then true
  else match s.get? i with
    | some b => !(128 ≤ b && b < 192)
    | none => false

/-- Byte-level model of `PortkeyConfig::masked_api_key`. `none` models the
panic of the byte slice `&self.api_key[..4]` at a non-boundary offset. -/
def masked_api_key_bytes (key : List Nat) : Option (List Nat) :=
  if key.length > 4 then
    if is_char_boundary key 4 then some (key.take 4 ++ star_bytes)
    else none
  else some star_bytes

/-- Number of characters a UTF-8 byte string encodes: bytes that are not
continuation bytes. -/
def utf8_char_count (s : List Nat) : Nat :=
  (s.filter (fun b => !(128 ≤ b && b < 192))).length

/-! ## Header assembly (`PortkeyClient::apply_portkey_headers`)

The source threads a `reqwest::RequestBuilder` through a straight-line
sequence of `builder.header(name, value)` calls, each of which appends one
header. The model collects the appended `(name, value)` pairs in order; the
sequence below mirrors the source blocks one-for-one. -/

/-- Headers appended by the `match self.inner.config.auth_method()` block of
`apply_portkey_headers`. -/
def auth_headers : AuthMethod → List (String × String)
  | .VirtualKey vk => [("x-portkey-virtual-key", vk)]
  | .ProviderAuth p a h =>
      [("x-portkey-provider", p), ("Authorization", a)] ++
        (match h with
          | some host => [("x-portkey-custom-host", host)]
          | none => [])
  | .Config cid => [("x-portkey-config", cid)]

/-- Header appended by an `if let Some(v) = ...` block guarding a single
optional header. -/
def opt_header (name : String) : Option String → List (String × String)
  | some v => [(name, v)]
  | none => []

/-- Headers appended by the metadata block of `apply_portkey_headers`: if the
metadata map is set, JSON-serialize it; on success append the header, on
failure log and skip (no header, no error). -/
def metadata_header (metadata : Option Metadata) (ser : Metadata → Option String) :
    List (String × String) :=
  match metadata with
  | none => []
  | some m =>
      match ser m with
      | some s => [("x-portkey-metadata", s)]
      | none => []

/-- Header appended by the cache-force-refresh block: the flag is stringified
by `to_string()`. -/
def cache_force_refresh_header : Option Bool → List (String × String)
  | some b => [("x-portkey-cache-force-refresh", if b then "true" else "false")]
  | none => []

/-- `PortkeyClient::apply_portkey_headers`: the full ordered header list, with
`ser` standing for `serde_json::to_string` on the metadata map. -/
def apply_portkey_headers (c : PortkeyConfig) (ser : Metadata → Option String) :
    List (String × String) :=
  [("x-portkey-api-key", c.api_key)]
    ++ auth_headers c.auth_method
    ++ opt_header "x-portkey-trace-id" c.trace_id
    ++ metadata_header c.metadata ser
    ++ opt_header "x-portkey-cache-namespace" c.cache_namespace
    ++ cache_force_refresh_header c.cache_force_refresh

/-- Whether any header in the list carries the given name. -/
def has_header (hs : List (String × String)) (name : String) : Bool :=
  hs.any (fun h => h.1 == name)

/-- The same configuration with the metadata map cleared; used to compare the
headers of a request whose metadata failed to serialize with those of a
request that never had metadata. -/
def set_metadata_none (c : PortkeyConfig) : PortkeyConfig :=
  { c with metadata := none }

/-- Whether the metadata block emits a header: the map is set and serializes
successfully. -/
def md_emits (c : PortkeyConfig) (ser : Metadata → Option String) : Bool :=
  match c.metadata with
  | some m => (ser m).isSome
  | none => false

/-- The fixed overall order in which `apply_portkey_headers` can emit header
names: api key, then the auth-variant headers, then trace id, metadata,
cache namespace, cache force refresh. -/
def canonical_header_order : List String :=
  ["x-portkey-api-key", "x-portkey-virtual-key", "x-portkey-provider",
   "Authorization", "x-portkey-custom-host", "x-portkey-config",
   "x-portkey-trace-id", "x-portkey-metadata", "x-portkey-cache-namespace",
   "x-portkey-cache-force-refresh"]

/-! ## Configuration builder (`PortkeyBuilder`, `src/client/config.rs`)

`derive_builder` stores every field as an option; `build()` first runs
`validate_config`, then fails with `UninitializedField` for a missing
defaultless field (`api_key`, `auth_method`) and fills the documented
defaults for the rest. Optional config fields default to `None`. -/

/-- Builder error type generated by `derive_builder`
(`PortkeyBuilderError`). -/
inductive PortkeyBuilderError where
  | UninitializedField (field : String)
  | ValidationError (msg : String)
deriving DecidableEq, Repr

/-- The SDK error enum from `src/error.rs`. The payloads of the transport,
serialization and URL variants are opaque to the core. -/
inductive Error where
  | Http
  | Serialization
  | Config (e : PortkeyBuilderError)
  | UrlParse
deriving DecidableEq, Repr

/-- Builder state (`PortkeyBuilder`). Fields that are optional in the config
are stored flattened (a set optional field goes straight to its value), which
matches what `build()` produces from the derive_builder double option. -/
structure PortkeyBuilder where
  api_key : Option String := none
  auth_method : Option AuthMethod := none
  base_url : Option String := none
  timeout : Option Nat := none
  trace_id : Option String := none
  metadata : Option Metadata := none
  cache_namespace : Option String := none
  cache_force_refresh : Option Bool := none
deriving DecidableEq, Repr

/-- `PortkeyBuilder::default_base_url`. -/
def default_base_url : String := "https://api.portkey.ai/v1"

/-- One second in the nanosecond model of `Duration`. -/
def second_ns : Nat := 1000000000

/-- `PortkeyBuilder::default_timeout` (30 seconds). -/
def default_timeout : Nat := 30 * second_ns

/-- Rust `char::is_whitespace`: the Unicode White_Space property. -/
def is_rust_whitespace (c : Char) : Bool :=
  let n := c.toNat
  (9 ≤ n && n ≤ 13) || n = 32 || n = 133 || n = 160 || n = 5760 ||
    (8192 ≤ n && n ≤ 8202) || n = 8232 || n = 8233 || n = 8239 ||
    n = 8287 || n = 12288

/-- Rust `str::trim`: drop leading and trailing whitespace characters. -/
def rust_trim (s : String) : String :=
  String.mk (((s.data.dropWhile is_rust_whitespace).reverse.dropWhile
    is_rust_whitespace).reverse)

/-- The timeout checks of `PortkeyBuilder::validate_config`: reject a zero
timeout, then a timeout above 300 seconds. -/
def validate_timeout : Option Nat → Except String Unit
  | none => .ok ()
  | some t =>
      if t = 0 then .error "Timeout must be greater than 0"
      else if t > 300 * second_ns then
        .error "Timeout cannot exceed 300 seconds (5 minutes)"
      else .ok ()

/-- `PortkeyBuilder::validate_config`: a set API key that trims to the empty
string is rejected first, then the timeout checks run. -/
def validate_config (b : PortkeyBuilder) : Except String Unit :=
  match b.api_key with
  | some k =>
      if rust_trim k = "" then .error "API key cannot be empty"
      else validate_timeout b.timeout
  | none => validate_timeout b.timeout

/-- `PortkeyBuilder::build` as generated by `derive_builder` with the
`validate_config` hook: validate, then require `api_key` and `auth_method`,
then fill defaults. -/
def build (b : PortkeyBuilder) : Except PortkeyBuilderError PortkeyConfig :=
  match validate_config b with
  | .error m => .error (.ValidationError m)
  | .ok () =>
      match b.api_key with
      | none => .error (.UninitializedField "api_key")
      | some k =>
          match b.auth_method with
          | none => .error (.UninitializedField "auth_method")
          | some a =>
              .ok { api_key := k
                    auth_method := a
                    base_url := b.base_url.getD default_base_url
                    timeout := b.timeout.getD default_timeout
                    trace_id := b.trace_id
                    metadata := b.metadata
                    cache_namespace := b.cache_namespace
                    cache_force_refresh := b.cache_force_refresh }

/-! ## Environment-based construction (`PortkeyConfig::from_env`) -/

/-- The process environment as seen through `std::env::var`: `none` models an
unset (or non-unicode) variable. -/
def Env := String → Option String

/-- Rust `u64::from_str` as used for `PORTKEY_TIMEOUT_SECS`: an optional
leading plus sign, then one or more decimal digits, value within `u64`. -/
def parse_u64 (s : String) : Option Nat :=
  let digits := if s.startsWith "+" then (s.drop 1).data else s.data
  if digits.isEmpty ∨ ¬ digits.all Char.isDigit then none
  else
    let v := digits.foldl (fun acc c => acc * 10 + (c.toNat - 48)) 0
    if v < 2 ^ 64 then some v else none

/-- Rust `bool::from_str` as used for `PORTKEY_CACHE_FORCE_REFRESH`. -/
def parse_bool (s : String) : Option Bool :=
  if s = "true" then some true
  else if s = "false" then some false
  else none

/-- The authentication-method determination block of `PortkeyConfig::from_env`:
`PORTKEY_VIRTUAL_KEY` first, else `PORTKEY_PROVIDER` (which then requires
`PORTKEY_AUTHORIZATION` and optionally takes `PORTKEY_CUSTOM_HOST`), else
`PORTKEY_CONFIG`, else a validation error. -/
def resolve_auth_method (env : Env) : Except PortkeyBuilderError AuthMethod :=
  match env "PORTKEY_VIRTUAL_KEY" with
  | some virtual_key => .ok (.VirtualKey virtual_key)
  | none =>
      match env "PORTKEY_PROVIDER" with
      | some provider =>
          match env "PORTKEY_AUTHORIZATION" with
          | some authorization =>
              .ok (.ProviderAuth provider authorization (env "PORTKEY_CUSTOM_HOST"))
          | none =>
              .error (.ValidationError
                "PORTKEY_AUTHORIZATION required when PORTKEY_PROVIDER is set")
      | none =>
          match env "PORTKEY_CONFIG" with
          | some config_id => .ok (.Config config_id)
          | none =>
              .error (.ValidationError
                "One of PORTKEY_VIRTUAL_KEY, PORTKEY_PROVIDER, or PORTKEY_CONFIG must be set")

/-- The `PORTKEY_BASE_URL` block of `from_env`. -/
def env_base_url_step (env : Env) (b : PortkeyBuilder) : PortkeyBuilder :=
  match env "PORTKEY_BASE_URL" with
  | some u => { b with base_url := some u }
  | none => b

/-- The `PORTKEY_TIMEOUT_SECS` block of `from_env`: an unparsable value is a
validation error. -/
def env_timeout_step (env : Env) (b : PortkeyBuilder) :
    Except Error PortkeyBuilder :=
  match env "PORTKEY_TIMEOUT_SECS" with
  | some ts =>
      match parse_u64 ts with
      | some n => .ok { b with timeout := some (n * second_ns) }
      | none => .error (.Config (.ValidationError
          ("Invalid PORTKEY_TIMEOUT_SECS value: " ++ ts)))
  | none => .ok b

/-- The `PORTKEY_TRACE_ID` block of `from_env`. -/
def env_trace_step (env : Env) (b : PortkeyBuilder) : PortkeyBuilder :=
  match env "PORTKEY_TRACE_ID" with
  | some t => { b with trace_id := some t }
  | none => b

/-- The `PORTKEY_CACHE_NAMESPACE` block of `from_env`. -/
def env_cache_ns_step (env : Env) (b : PortkeyBuilder) : PortkeyBuilder :=
  match env "PORTKEY_CACHE_NAMESPACE" with
  | some n => { b with cache_namespace := some n }
  | none => b

/-- The `PORTKEY_CACHE_FORCE_REFRESH` block of `from_env`: an unparsable
value is silently ignored. -/
def env_cache_fr_step (env : Env) (b : PortkeyBuilder) : PortkeyBuilder :=
  match env "PORTKEY_CACHE_FORCE_REFRESH" with
  | some s =>
      match parse_bool s with
      | some v => { b with cache_force_refresh := some v }
      | none => b
  | none => b

/-- The optional-variable section of `from_env`: apply `PORTKEY_BASE_URL`,
`PORTKEY_TIMEOUT_SECS` (failing on an unparsable value), `PORTKEY_TRACE_ID`,
`PORTKEY_CACHE_NAMESPACE` and `PORTKEY_CACHE_FORCE_REFRESH` (silently ignored
when unparsable) to the builder, in source order. -/
def apply_env_options (env : Env) (b : PortkeyBuilder) :
    Except Error PortkeyBuilder :=
  match env_timeout_step env (env_base_url_step env b) with
  | .error e => .error e
  | .ok b =>
      .ok (env_cache_fr_step env (env_cache_ns_step env (env_trace_step env b)))

/-- `PortkeyConfig::from_env`: require `PORTKEY_API_KEY`, resolve the auth
method, apply the optional variables, then run the same `build()` as explicit
construction. Builder errors surface as `Error.Config`. -/
def from_env (env : Env) : Except Error PortkeyConfig :=
  match env "PORTKEY_API_KEY" with
  | none =>
      .error (.Config (.ValidationError
        "PORTKEY_API_KEY environment variable not set"))
  | some api_key =>
      match resolve_auth_method env with
      | .error e => .error (.Config e)
      | .ok auth_method =>
          match apply_env_options env
              { api_key := some api_key, auth_method := some auth_method } with
          | .error e => .error e
          | .ok b =>
              match build b with
              | .error e => .error (.Config e)
              | .ok cfg => .ok cfg

/-! ## Response classification (`ChatService::create_chat_completion`)

After dispatch the service layer runs `response.error_for_status()?` and then
`response.json::<T>().await?`. `reqwest::Response::error_for_status` fails
exactly for client-error (400–499) and server-error (500–599) statuses; other
statuses are handed to deserialization. The body is modelled by its parse
outcome: `some v` when it deserializes as the expected type, `none`
otherwise. -/

/-- Outcome of a resource-service call, after the transport returned a
response with the given status. -/
inductive ServiceOutcome (α : Type) where
  | ok (value : α)
  | httpStatusError (status : Nat)
  | serializationError
deriving DecidableEq, Repr

/-- The response-handling tail of `create_chat_completion`:
`error_for_status()?` then `json().await?`. -/
def handle_response (α : Type) (status : Nat) (parsed : Option α) :
    ServiceOutcome α :=
  if 400 ≤ status ∧ status ≤ 599 then .httpStatusError status
  else
    match parsed with
    | some v => .ok v
    | none => .serializationError

/-! ## Debug rendering (`impl fmt::Debug` in `config.rs` / `portkey.rs`)

Both `Debug` impls print only the masked API key, the base URL and the
timeout. The mask is the byte-level `masked_api_key_bytes` (the source
function slices bytes and can panic), so the rendering is modelled on the
key's UTF-8 bytes and the whole output is a UTF-8 byte list, `none` when the
mask panics inside the `Debug` impl. `debug_duration` stands for
`Duration`'s `Debug` rendering, whose exact text is immaterial — only its
dependence on the value matters. -/

/-- Standard UTF-8 encoding of one character. -/
def utf8_encode_char (ch : Char) : List Nat :=
  let n := ch.toNat
  if n < 128 then [n]
  else if n < 2048 then [192 + n / 64, 128 + n % 64]
  else if n < 65536 then
    [224 + n / 4096, 128 + (n / 64) % 64, 128 + n % 64]
  else
    [240 + n / 262144, 128 + (n / 4096) % 64, 128 + (n / 64) % 64,
     128 + n % 64]

/-- The UTF-8 bytes of a string, as Rust's `str::len` and byte slicing see
it. -/
def utf8_bytes (s : String) : List Nat :=
  s.data.foldr (fun c acc => utf8_encode_char c ++ acc) []

/-- Rendering of the timeout `Duration` by `Debug`. -/
def debug_duration (t : Nat) : String := toString t ++ "ns"

/-- `impl fmt::Debug for PortkeyConfig`: the `debug_struct` output with the
fields `api_key` (rendered through the byte-level `masked_api_key_bytes`),
`base_url` and `timeout`; `none` when the mask's byte slice panics. -/
def debug_portkey_config (c : PortkeyConfig) : Option (List Nat) :=
  match masked_api_key_bytes (utf8_bytes c.api_key) with
  | none => none
  | some mk =>
      some (utf8_bytes "PortkeyConfig \x7b api_key: \"" ++ mk ++
        utf8_bytes ("\", base_url: \"" ++ c.base_url ++ "\", timeout: " ++
          debug_duration c.timeout ++ " \x7d"))

/-- `impl fmt::Debug for PortkeyClient`: same three fields, read through the
wrapped config. -/
def debug_portkey_client (c : PortkeyConfig) : Option (List Nat) :=
  match masked_api_key_bytes (utf8_bytes c.api_key) with
  | none => none
  | some mk =>
      some (utf8_bytes "PortkeyClient \x7b api_key: \"" ++ mk ++
        utf8_bytes ("\", base_url: \"" ++ c.base_url ++ "\", timeout: " ++
          debug_duration c.timeout ++ " \x7d"))

end Portkey

open Portkey

/-! ## Claim C1: URL assembly -/

/-- C1 counterexample: the request constructors concatenate `base_url` and
`path` verbatim, so for the base `"https://api.example.com/v1/"` (with a
trailing slash) and the path `"/chat/completions"` the assembled URL keeps a
duplicate separator, contradicting the claim that the assembled path is
exactly `"/v1/chat/completions"` regardless of a trailing slash. -/
theorem C1_counterexample :
    assembled_url "https://api.example.com/v1/" "/chat/completions"
        = "https://api.example.com/v1//chat/completions" ∧
    assembled_url "https://api.example.com/v1/" "/chat/completions"
        ≠ "https://api.example.com/v1/chat/completions" := by
  exact ⟨by decide, by decide⟩

/-- C1 amended: the assembled request URL is the plain concatenation of the
base URL and the path, with no trailing-slash trimming; it therefore agrees
with the trim-one-trailing-slash join described by the spec exactly when the
base URL does not end in a slash, and in particular for the base
`"https://api.example.com/v1"` and the path `"/chat/completions"` the
assembled URL is `"https://api.example.com/v1/chat/completions"`. -/
theorem C1_amended :
    (∀ base path : String, ends_with_slash base = false →
        assembled_url base path = spec_join_url base path) ∧
    assembled_url "https://api.example.com/v1" "/chat/completions"
        = "https://api.example.com/v1/chat/completions" := by
  constructor
  · intro base path h
    simp [assembled_url, spec_join_url, h]
  · decide

/-- C1 amended, witnessed at the spec's own example base and path. -/
theorem C1_amended_witness :
    assembled_url "https://api.example.com/v1" "/chat/completions"
        = spec_join_url "https://api.example.com/v1" "/chat/completions" :=
  C1_amended.1 "https://api.example.com/v1" "/chat/completions" (by decide)

/-! ## Claim C2: masked API key -/

/-- C2: evaluating the byte-level model of `masked_api_key` at the failing
inputs. For the key `"aaaé"` (bytes `[97, 97, 97, 195, 169]`, four
characters, five bytes) the byte slice `[..4]` falls inside the two-byte
character and the function panics (`none`): it is not total. For the key
`"ééa"` (bytes `[195, 169, 195, 169, 97]`, three characters, five bytes) the
function returns `"éé****"` — the first two characters, not `"****"` as its
own documentation (`length ≤ 4` characters) requires. -/
theorem C2_code_bug_eval :
    masked_api_key_bytes [97, 97, 97, 195, 169] = none ∧
    masked_api_key_bytes [195, 169, 195, 169, 97]
        = some [195, 169, 195, 169, 42, 42, 42, 42] ∧
    utf8_char_count [195, 169, 195, 169, 97] = 3 ∧
    utf8_char_count [97, 97, 97, 195, 169] = 4 := by
  exact ⟨by decide, by decide, by decide, by decide⟩

/-! ## Claim C3: response classification -/

/-- C3 counterexample: a response with the non-2xx status 301 whose body
parses as the expected type is returned as a success by the
`error_for_status` / `json` tail of `create_chat_completion`, because
`reqwest::Response::error_for_status` only rejects statuses 400–599. -/
theorem C3_counterexample :
    handle_response Nat 301 (some 0) = ServiceOutcome.ok 0 := by
  decide

/-- C3 amended: for every response whose status is in 400–599 (the statuses
`error_for_status` classifies as client or server errors), a resource-service
call returns a classified error and never a parsed value, even when the body
would deserialize to the expected type; statuses below 400 (2xx and 3xx) are
handed to deserialization, succeeding whenever the body parses. -/
theorem C3_amended :
    ∀ (α : Type) (status : Nat) (parsed : Option α),
      (400 ≤ status → status ≤ 599 →
        handle_response α status parsed = ServiceOutcome.httpStatusError status) ∧
      (status < 400 → ∀ v, parsed = some v →
        handle_response α status parsed = ServiceOutcome.ok v) := by
  intro α status parsed
  constructor
  · intro h1 h2
    simp [handle_response, h1, h2]
  · intro h v hv
    have : ¬ (400 ≤ status ∧ status ≤ 599) := by omega
    simp [handle_response, this, hv]

/-- C3 amended, witnessed at the statuses 401 (classified error despite a
parseable body) and 301 (handed back to deserialization). -/
theorem C3_amended_witness :
    handle_response Nat 401 (some 0) = ServiceOutcome.httpStatusError 401 ∧
    handle_response Nat 301 (some 7) = ServiceOutcome.ok 7 :=
  ⟨(C3_amended Nat 401 (some 0)).1 (by decide) (by decide),
   (C3_amended Nat 301 (some 7)).2 (by decide) 7 rfl⟩

/-! ## Shared lemmas about the header blocks -/

/-- Splitting `has_header` over list concatenation. -/
theorem has_header_append (l₁ l₂ : List (String × String)) (n : String) :
    has_header (l₁ ++ l₂) n = (has_header l₁ n || has_header l₂ n) := by
  simp [has_header]

/-- `has_header` on a one-header block. -/
theorem has_header_single (name v n : String) :
    has_header [(name, v)] n = (name == n) := by
  simp [has_header]

/-- `has_header` on an optional-header block. -/
theorem has_header_opt (name : String) (o : Option String) (n : String) :
    has_header (opt_header name o) n = (o.isSome && (name == n)) := by
  cases o <;> simp [opt_header, has_header]

/-- `has_header` on the metadata block. -/
theorem has_header_md (md : Option Metadata) (ser : Metadata → Option String)
    (n : String) :
    has_header (metadata_header md ser) n =
      ((match md with | some m => (ser m).isSome | none => false)
        && ("x-portkey-metadata" == n)) := by
  cases md with
  | none => simp [metadata_header, has_header]
  | some m => cases hm : ser m <;> simp [metadata_header, has_header, hm]

/-- `has_header` on the cache-force-refresh block. -/
theorem has_header_fr (fr : Option Bool) (n : String) :
    has_header (cache_force_refresh_header fr) n =
      (fr.isSome && ("x-portkey-cache-force-refresh" == n)) := by
  cases fr <;> simp [cache_force_refresh_header, has_header]

/-- Name lookup over the whole assembled header list, block by block. -/
theorem has_header_apply (c : PortkeyConfig) (ser : Metadata → Option String)
    (n : String) :
    has_header (apply_portkey_headers c ser) n =
      (("x-portkey-api-key" == n)
        || has_header (auth_headers c.auth_method) n
        || (c.trace_id.isSome && ("x-portkey-trace-id" == n))
        || (md_emits c ser && ("x-portkey-metadata" == n))
        || (c.cache_namespace.isSome && ("x-portkey-cache-namespace" == n))
        || (c.cache_force_refresh.isSome
              && ("x-portkey-cache-force-refresh" == n))) := by
  simp only [apply_portkey_headers, has_header_append, has_header_single,
    has_header_opt, has_header_fr, has_header_md, md_emits]

/-- The header names the metadata block contributes: none, or exactly
`x-portkey-metadata`. -/
theorem metadata_header_names (md : Option Metadata)
    (ser : Metadata → Option String) :
    (metadata_header md ser).map Prod.fst = [] ∨
    (metadata_header md ser).map Prod.fst = ["x-portkey-metadata"] := by
  cases md with
  | none => exact Or.inl rfl
  | some m =>
      cases hm : ser m with
      | none => exact Or.inl (by simp [metadata_header, hm])
      | some s => exact Or.inr (by simp [metadata_header, hm])

/-! ## Claim C4: metadata-serialization failure is swallowed -/

/-- C4: for a configuration whose metadata map is set, when serialization
fails the assembled headers equal those of the same configuration with no
metadata at all — the header is skipped, every other header is unchanged, and
no error is produced (the function is total); when serialization succeeds the
metadata block contributes exactly the `x-portkey-metadata` header whose
value is the serialization, and that header appears in the assembled set. -/
theorem C4_metadata_failure_swallowed :
    ∀ (c : PortkeyConfig) (m : Metadata) (ser : Metadata → Option String),
      c.metadata = some m →
      (ser m = none →
        apply_portkey_headers c ser
          = apply_portkey_headers (set_metadata_none c) ser) ∧
      (∀ s, ser m = some s →
        metadata_header c.metadata ser = [("x-portkey-metadata", s)] ∧
        ("x-portkey-metadata", s) ∈ apply_portkey_headers c ser) := by
  intro c m ser hm
  constructor
  · intro hser
    simp [apply_portkey_headers, set_metadata_none, metadata_header, hm, hser]
  · intro s hser
    refine ⟨by simp [metadata_header, hm, hser], ?_⟩
    simp [apply_portkey_headers, metadata_header, hm, hser]

/-- C4, witnessed on a concrete configuration with a set metadata map and an
always-failing serializer. -/
theorem C4_metadata_failure_swallowed_witness :
    apply_portkey_headers
        ⟨"test_key", AuthMethod.VirtualKey "vk", default_base_url,
          default_timeout, none, some [("a", "b")], none, none⟩
        (fun _ => none)
      = apply_portkey_headers
          (set_metadata_none
            ⟨"test_key", AuthMethod.VirtualKey "vk", default_base_url,
              default_timeout, none, some [("a", "b")], none, none⟩)
          (fun _ => none) :=
  (C4_metadata_failure_swallowed _ [("a", "b")] (fun _ => none) rfl).1 rfl

/-! ## Claim C5: auth-method headers are exact -/

/-- C5: header assembly always contains the mandatory API-key header, and for
each `AuthMethod` variant it contains exactly that variant's headers and no
header belonging to another variant; the assembly is a total function (it
cannot fail). -/
theorem C5_auth_headers_exact :
    ∀ (c : PortkeyConfig) (ser : Metadata → Option String),
      ("x-portkey-api-key", c.api_key) ∈ apply_portkey_headers c ser ∧
      (match c.auth_method with
       | AuthMethod.VirtualKey vk =>
           ("x-portkey-virtual-key", vk) ∈ apply_portkey_headers c ser ∧
           has_header (apply_portkey_headers c ser) "x-portkey-provider" = false ∧
           has_header (apply_portkey_headers c ser) "Authorization" = false ∧
           has_header (apply_portkey_headers c ser) "x-portkey-custom-host" = false ∧
           has_header (apply_portkey_headers c ser) "x-portkey-config" = false
       | AuthMethod.ProviderAuth p a h =>
           ("x-portkey-provider", p) ∈ apply_portkey_headers c ser ∧
           ("Authorization", a) ∈ apply_portkey_headers c ser ∧
           (match h with
            | some host =>
                ("x-portkey-custom-host", host) ∈ apply_portkey_headers c ser
            | none =>
                has_header (apply_portkey_headers c ser) "x-portkey-custom-host"
                  = false) ∧
           has_header (apply_portkey_headers c ser) "x-portkey-virtual-key" = false ∧
           has_header (apply_portkey_headers c ser) "x-portkey-config" = false
       | AuthMethod.Config cid =>
           ("x-portkey-config", cid) ∈ apply_portkey_headers c ser ∧
           has_header (apply_portkey_headers c ser) "x-portkey-virtual-key" = false ∧
           has_header (apply_portkey_headers c ser) "x-portkey-provider" = false ∧
           has_header (apply_portkey_headers c ser) "Authorization" = false ∧
           has_header (apply_portkey_headers c ser) "x-portkey-custom-host" = false) := by
  intro c ser
  refine ⟨by simp [apply_portkey_headers], ?_⟩
  rcases hauth : c.auth_method with vk | ⟨p, a, _ | host⟩ | cid <;> simp only [hauth]
  · refine ⟨by simp [apply_portkey_headers, auth_headers, hauth],
        ?_, ?_, ?_, ?_⟩ <;>
      (rw [has_header_apply]; simp [hauth, auth_headers, has_header])
  · refine ⟨by simp [apply_portkey_headers, auth_headers, hauth],
        by simp [apply_portkey_headers, auth_headers, hauth], ?_, ?_, ?_⟩ <;>
      (rw [has_header_apply]; simp [hauth, auth_headers, has_header])
  · refine ⟨by simp [apply_portkey_headers, auth_headers, hauth],
        by simp [apply_portkey_headers, auth_headers, hauth],
        by simp [apply_portkey_headers, auth_headers, hauth], ?_, ?_⟩ <;>
      (rw [has_header_apply]; simp [hauth, auth_headers, has_header])
  · refine ⟨by simp [apply_portkey_headers, auth_headers, hauth],
        ?_, ?_, ?_, ?_⟩ <;>
      (rw [has_header_apply]; simp [hauth, auth_headers, has_header])

/-! ## Claim C7: fixed header order, no duplicates -/

/-- C7: the names of the assembled headers always form a sublist of the fixed
canonical order (api key, auth-method headers, trace id, metadata, cache
namespace, cache force refresh) — each block only appends after the previous
ones, nothing is removed or overwritten — and no header name is emitted
twice. -/
theorem C7_header_order_nodup :
    ∀ (c : PortkeyConfig) (ser : Metadata → Option String),
      ((apply_portkey_headers c ser).map Prod.fst).Sublist
          canonical_header_order ∧
      ((apply_portkey_headers c ser).map Prod.fst).Nodup := by
  intro c ser
  have hsub : ((apply_portkey_headers c ser).map Prod.fst).Sublist
      canonical_header_order := by
    obtain ⟨ak, am, bu, ti, tr, md, ns, fr⟩ := c
    rcases metadata_header_names md ser with hmd | hmd <;>
      rcases am with vk | ⟨p, a, _ | host⟩ | cid <;>
      rcases tr with _ | tv <;> rcases ns with _ | nv <;> rcases fr with _ | fv <;>
      simp [apply_portkey_headers, auth_headers, opt_header,
            cache_force_refresh_header, hmd] <;>
      decide
  exact ⟨hsub, List.Nodup.sublist hsub (by decide)⟩

/-! ## Claim C6: builder validation -/

/-- C6: with `api_key` and `auth_method` set, `build()` fails with a
validation error exactly when the API key trims to the empty string or a set
timeout is zero or exceeds 300 seconds; with a non-blank key and any set
timeout in `(0, 300s]` (300 s itself included) it succeeds. -/
theorem C6_build_validation :
    ∀ (b : PortkeyBuilder) (k : String) (a : AuthMethod),
      b.api_key = some k → b.auth_method = some a →
      ((∃ m, build b = Except.error (PortkeyBuilderError.ValidationError m)) ↔
        (rust_trim k = "" ∨
          ∃ t, b.timeout = some t ∧ (t = 0 ∨ t > 300 * second_ns))) ∧
      (rust_trim k ≠ "" →
        (∀ t, b.timeout = some t → 0 < t ∧ t ≤ 300 * second_ns) →
        ∃ cfg, build b = Except.ok cfg) := by
  intro b k a hk ha
  have hval : validate_config b =
      (if rust_trim k = "" then Except.error "API key cannot be empty"
       else validate_timeout b.timeout) := by
    simp [validate_config, hk]
  constructor
  · constructor
    · rintro ⟨m, hm⟩
      by_cases hk0 : rust_trim k = ""
      · exact Or.inl hk0
      · refine Or.inr ?_
        rcases ht : b.timeout with _ | t
        · exfalso
          simp [build, hval, hk0, validate_timeout, ht, hk, ha] at hm
        · by_cases h0 : t = 0
          · exact ⟨t, rfl, Or.inl h0⟩
          · by_cases h3 : t > 300 * second_ns
            · exact ⟨t, rfl, Or.inr h3⟩
            · exfalso
              simp [build, hval, hk0, validate_timeout, ht, h0, h3, hk, ha] at hm
    · intro h
      by_cases hk0 : rust_trim k = ""
      · exact ⟨"API key cannot be empty", by simp [build, hval, hk0]⟩
      · rcases h with h | ⟨t, ht, hcase⟩
        · exact absurd h hk0
        · rcases hcase with h0 | h3
          · exact ⟨"Timeout must be greater than 0",
              by simp [build, hval, hk0, validate_timeout, ht, h0]⟩
          · have h0 : ¬ t = 0 := by omega
            exact ⟨"Timeout cannot exceed 300 seconds (5 minutes)",
              by simp [build, hval, hk0, validate_timeout, ht, h0, h3]⟩
  · intro hk0 htok
    rcases hb : build b with e | cfg
    · exfalso
      rcases ht : b.timeout with _ | t
      · simp [build, hval, hk0, validate_timeout, ht, hk, ha] at hb
      · obtain ⟨h1, h2⟩ := htok t ht
        have h0 : ¬ t = 0 := by omega
        have h3 : ¬ t > 300 * second_ns := by omega
        simp [build, hval, hk0, validate_timeout, ht, h0, h3, hk, ha] at hb
    · exact ⟨cfg, rfl⟩

/-- C6, witnessed at a non-blank key with the boundary timeout of exactly
300 seconds, where `build()` must succeed. -/
theorem C6_build_validation_witness :
    ∃ cfg,
      build ⟨some "test_key", some (AuthMethod.VirtualKey "vk"), none,
        some (300 * second_ns), none, none, none, none⟩ = Except.ok cfg :=
  (C6_build_validation _ "test_key" (AuthMethod.VirtualKey "vk") rfl rfl).2
    (by decide)
    (fun t ht => by
      injection ht with h
      rw [← h]
      constructor <;> norm_num [second_ns])

/-! ## Claim C8: debug rendering masks the API key -/

/-- C8: the debug representations of a configuration and of a client wrapping
it are functions of the byte-level masked API key (panic included), the base
URL and the timeout alone — two configurations whose keys mask to the same
result and that agree on base URL and timeout render identically whatever
their raw API keys are, so the renderings reveal the key only in its masked
form. -/
theorem C8_debug_masks_api_key :
    ∀ c₁ c₂ : PortkeyConfig,
      masked_api_key_bytes (utf8_bytes c₁.api_key)
          = masked_api_key_bytes (utf8_bytes c₂.api_key) →
      c₁.base_url = c₂.base_url → c₁.timeout = c₂.timeout →
      debug_portkey_config c₁ = debug_portkey_config c₂ ∧
      debug_portkey_client c₁ = debug_portkey_client c₂ := by
  intro c₁ c₂ h1 h2 h3
  constructor <;>
    simp [debug_portkey_config, debug_portkey_client, h1, h2, h3]

/-- C8, witnessed on two configurations that differ only in the raw API key
(same first four characters) and render identically. -/
theorem C8_debug_masks_api_key_witness :
    debug_portkey_config
        ⟨"secret_api_key_1", AuthMethod.VirtualKey "vk", default_base_url,
          default_timeout, none, none, none, none⟩
      = debug_portkey_config
          ⟨"secret_api_key_2", AuthMethod.VirtualKey "vk", default_base_url,
            default_timeout, none, none, none, none⟩ ∧
    debug_portkey_client
        ⟨"secret_api_key_1", AuthMethod.VirtualKey "vk", default_base_url,
          default_timeout, none, none, none, none⟩
      = debug_portkey_client
          ⟨"secret_api_key_2", AuthMethod.VirtualKey "vk", default_base_url,
            default_timeout, none, none, none, none⟩ :=
  C8_debug_masks_api_key _ _ (by decide) rfl rfl

/-! ## Shared lemmas about `from_env` -/

/-- A successful `build` keeps the builder's auth method. -/
theorem build_ok_auth (b : PortkeyBuilder) (cfg : PortkeyConfig)
    (h : build b = Except.ok cfg) : b.auth_method = some cfg.auth_method := by
  cases hv : validate_config b with
  | error m => simp [build, hv] at h
  | ok u =>
      cases hk : b.api_key with
      | none => simp [build, hv, hk] at h
      | some k =>
          cases ha : b.auth_method with
          | none => simp [build, hv, hk, ha] at h
          | some a =>
              simp only [build, hv, hk, ha, Except.ok.injEq] at h
              rw [← h]

/-- None of the optional-variable steps of `from_env` touches the builder's
auth method. -/
theorem apply_env_options_auth (env : Env) (b b' : PortkeyBuilder)
    (h : apply_env_options env b = Except.ok b') :
    b'.auth_method = b.auth_method := by
  have hbase : ∀ x : PortkeyBuilder,
      (env_base_url_step env x).auth_method = x.auth_method := by
    intro x
    cases hu : env "PORTKEY_BASE_URL" <;> simp [env_base_url_step, hu]
  have htrace : ∀ x : PortkeyBuilder,
      (env_trace_step env x).auth_method = x.auth_method := by
    intro x
    cases hu : env "PORTKEY_TRACE_ID" <;> simp [env_trace_step, hu]
  have hns : ∀ x : PortkeyBuilder,
      (env_cache_ns_step env x).auth_method = x.auth_method := by
    intro x
    cases hu : env "PORTKEY_CACHE_NAMESPACE" <;> simp [env_cache_ns_step, hu]
  have hfr : ∀ x : PortkeyBuilder,
      (env_cache_fr_step env x).auth_method = x.auth_method := by
    intro x
    cases hu : env "PORTKEY_CACHE_FORCE_REFRESH" with
    | none => simp [env_cache_fr_step, hu]
    | some s => cases hp : parse_bool s <;> simp [env_cache_fr_step, hu, hp]
  have htime : ∀ x y : PortkeyBuilder, env_timeout_step env x = Except.ok y →
      y.auth_method = x.auth_method := by
    intro x y hxy
    cases hu : env "PORTKEY_TIMEOUT_SECS" with
    | none =>
        simp only [env_timeout_step, hu, Except.ok.injEq] at hxy
        rw [← hxy]
    | some ts =>
        cases hp : parse_u64 ts with
        | none => simp [env_timeout_step, hu, hp] at hxy
        | some n =>
            simp only [env_timeout_step, hu, hp, Except.ok.injEq] at hxy
            rw [← hxy]
  cases hts : env_timeout_step env (env_base_url_step env b) with
  | error e => simp [apply_env_options, hts] at h
  | ok bmid =>
      simp only [apply_env_options, hts, Except.ok.injEq] at h
      rw [← h, hfr, hns, htrace, htime _ _ hts, hbase]

/-- A successful `from_env` run resolves the auth method exactly as the
environment's auth-variable block dictates. -/
theorem from_env_ok_auth (env : Env) (cfg : PortkeyConfig)
    (h : from_env env = Except.ok cfg) :
    resolve_auth_method env = Except.ok cfg.auth_method := by
  cases hak : env "PORTKEY_API_KEY" with
  | none => simp [from_env, hak] at h
  | some ak =>
      cases hra : resolve_auth_method env with
      | error e => simp [from_env, hak, hra] at h
      | ok am =>
          cases hops : apply_env_options env
              { api_key := some ak, auth_method := some am } with
          | error e => simp [from_env, hak, hra, hops] at h
          | ok b =>
              cases hb : build b with
              | error e => simp [from_env, hak, hra, hops, hb] at h
              | ok cfg' =>
                  have hcfg : cfg' = cfg := by
                    simpa [from_env, hak, hra, hops, hb] using h
                  have h1 := build_ok_auth b cfg' hb
                  have h2 := apply_env_options_auth env _ b hops
                  rw [h2] at h1
                  simp only [Option.some.injEq] at h1
                  rw [h1, hcfg]

/-! ## Claim C9: environment-construction failures -/

/-- C9: `from_env` fails with a Configuration (validation) error when
`PORTKEY_API_KEY` is unset, and also when none of the three auth-source
variable sets is fully present (`PORTKEY_VIRTUAL_KEY` unset,
`PORTKEY_CONFIG` unset, and `PORTKEY_PROVIDER`-with-`PORTKEY_AUTHORIZATION`
incomplete); in both cases no configuration is produced. -/
theorem C9_from_env_failures :
    ∀ env : Env,
      (env "PORTKEY_API_KEY" = none →
        from_env env = Except.error (Error.Config
          (PortkeyBuilderError.ValidationError
            "PORTKEY_API_KEY environment variable not set"))) ∧
      (env "PORTKEY_VIRTUAL_KEY" = none → env "PORTKEY_CONFIG" = none →
        (env "PORTKEY_PROVIDER" = none ∨ env "PORTKEY_AUTHORIZATION" = none) →
        ∃ m, from_env env = Except.error (Error.Config
          (PortkeyBuilderError.ValidationError m))) := by
  intro env
  constructor
  · intro h
    simp [from_env, h]
  · intro hvk hcfg hpa
    rcases hak : env "PORTKEY_API_KEY" with _ | ak
    · exact ⟨"PORTKEY_API_KEY environment variable not set",
        by simp [from_env, hak]⟩
    · have hra : ∃ m, resolve_auth_method env =
          Except.error (PortkeyBuilderError.ValidationError m) := by
        rcases hp : env "PORTKEY_PROVIDER" with _ | p
        · exact ⟨"One of PORTKEY_VIRTUAL_KEY, PORTKEY_PROVIDER, or PORTKEY_CONFIG must be set",
            by simp [resolve_auth_method, hvk, hp, hcfg]⟩
        · rcases hpa with hp' | hauth
          · rw [hp] at hp'
            exact absurd hp' (by simp)
          · exact ⟨"PORTKEY_AUTHORIZATION required when PORTKEY_PROVIDER is set",
              by simp [resolve_auth_method, hvk, hp, hauth]⟩
      obtain ⟨m, hm⟩ := hra
      exact ⟨m, by simp [from_env, hak, hm]⟩

/-- C9, witnessed on the empty environment, which violates both
preconditions at once. -/
theorem C9_from_env_failures_witness :
    from_env (fun _ => none) = Except.error (Error.Config
      (PortkeyBuilderError.ValidationError
        "PORTKEY_API_KEY environment variable not set")) ∧
    ∃ m, from_env (fun _ => none) = Except.error (Error.Config
      (PortkeyBuilderError.ValidationError m)) :=
  ⟨(C9_from_env_failures (fun _ => none)).1 rfl,
   (C9_from_env_failures (fun _ => none)).2 rfl rfl (Or.inl rfl)⟩

/-! ## Claim C10: environment auth-source precedence -/

/-- C10: `from_env` resolves simultaneously-set auth sources with fixed
precedence — `PORTKEY_VIRTUAL_KEY` over `PORTKEY_PROVIDER` over
`PORTKEY_CONFIG` — and when `PORTKEY_PROVIDER` is set without
`PORTKEY_VIRTUAL_KEY`, a missing `PORTKEY_AUTHORIZATION` is a validation
error even if `PORTKEY_CONFIG` is also set: there is no fallback to
config-based auth. -/
theorem C10_env_auth_precedence :
    ∀ env : Env,
      (∀ vk cfg, env "PORTKEY_VIRTUAL_KEY" = some vk →
        from_env env = Except.ok cfg →
        cfg.auth_method = AuthMethod.VirtualKey vk) ∧
      (∀ p a cfg, env "PORTKEY_VIRTUAL_KEY" = none →
        env "PORTKEY_PROVIDER" = some p →
        env "PORTKEY_AUTHORIZATION" = some a →
        from_env env = Except.ok cfg →
        cfg.auth_method = AuthMethod.ProviderAuth p a (env "PORTKEY_CUSTOM_HOST")) ∧
      (∀ cid cfg, env "PORTKEY_VIRTUAL_KEY" = none →
        env "PORTKEY_PROVIDER" = none →
        env "PORTKEY_CONFIG" = some cid →
        from_env env = Except.ok cfg →
        cfg.auth_method = AuthMethod.Config cid) ∧
      (∀ p, env "PORTKEY_VIRTUAL_KEY" = none →
        env "PORTKEY_PROVIDER" = some p →
        env "PORTKEY_AUTHORIZATION" = none →
        ∃ m, from_env env = Except.error (Error.Config
          (PortkeyBuilderError.ValidationError m))) := by
  intro env
  refine ⟨?_, ?_, ?_, ?_⟩
  · intro vk cfg hvk hok
    have hra := from_env_ok_auth env cfg hok
    simp only [resolve_auth_method, hvk, Except.ok.injEq] at hra
    exact hra.symm
  · intro p a cfg hvk hp hauth hok
    have hra := from_env_ok_auth env cfg hok
    simp only [resolve_auth_method, hvk, hp, hauth, Except.ok.injEq] at hra
    exact hra.symm
  · intro cid cfg hvk hp hcid hok
    have hra := from_env_ok_auth env cfg hok
    simp only [resolve_auth_method, hvk, hp, hcid, Except.ok.injEq] at hra
    exact hra.symm
  · intro p hvk hp hauth
    rcases hak : env "PORTKEY_API_KEY" with _ | ak
    · exact ⟨"PORTKEY_API_KEY environment variable not set",
        by simp [from_env, hak]⟩
    · exact ⟨"PORTKEY_AUTHORIZATION required when PORTKEY_PROVIDER is set",
        by simp [from_env, hak, resolve_auth_method, hvk, hp, hauth]⟩

/-- C10, witnessed on an environment with every auth variable set (the
virtual key wins) and on one with a provider and a config but no
authorization (which fails rather than falling back). -/
theorem C10_env_auth_precedence_witness :
    (∃ cfg,
      from_env (fun v =>
        if v = "PORTKEY_API_KEY" then some "k"
        else if v = "PORTKEY_VIRTUAL_KEY" then some "vk"
        else if v = "PORTKEY_PROVIDER" then some "p"
        else if v = "PORTKEY_AUTHORIZATION" then some "a"
        else if v = "PORTKEY_CONFIG" then some "c"
        else none) = Except.ok cfg ∧
      cfg.auth_method = AuthMethod.VirtualKey "vk") ∧
    (∃ m,
      from_env (fun v =>
        if v = "PORTKEY_API_KEY" then some "k"
        else if v = "PORTKEY_PROVIDER" then some "p"
        else if v = "PORTKEY_CONFIG" then some "c"
        else none) = Except.error (Error.Config
          (PortkeyBuilderError.ValidationError m))) :=
  ⟨⟨⟨"k", AuthMethod.VirtualKey "vk", default_base_url, default_timeout,
      none, none, none, none⟩,
    rfl,
    (C10_env_auth_precedence (fun v =>
        if v = "PORTKEY_API_KEY" then some "k"
        else if v = "PORTKEY_VIRTUAL_KEY" then some "vk"
        else if v = "PORTKEY_PROVIDER" then some "p"
        else if v = "PORTKEY_AUTHORIZATION" then some "a"
        else if v = "PORTKEY_CONFIG" then some "c"
        else none)).1 "vk"
      ⟨"k", AuthMethod.VirtualKey "vk", default_base_url, default_timeout,
        none, none, none, none⟩
      rfl rfl⟩,
   (C10_env_auth_precedence (fun v =>
        if v = "PORTKEY_API_KEY" then some "k"
        else if v = "PORTKEY_PROVIDER" then some "p"
        else if v = "PORTKEY_CONFIG" then some "c"
        else none)).2.2.2 "p" rfl rfl rfl⟩
